import Mathlib

/-!
Shallow embedding of the Galcon 9001BT BLE irrigation-controller integration
(`custom_components/galcon_bt`): the status codec, the transport executor's
retry loop, the verified command protocol of the device driver, and the
poll/command coordinator's state machine.  Device and scheduler interactions
(GATT reads/writes, sleeps, exceptions) are modelled by explicit outcome
parameters; state is threaded explicitly, and each operation additionally
returns the list of operation-phase values it set, in order.
-/

namespace GalconBT

/-! ## Constants (`const.py`) -/

def DEFAULT_SCAN_INTERVAL : Nat := 300

def MAX_RETRIES : Nat := 3

def COMMAND_VERIFY_ATTEMPTS : Nat := 3

def MAX_CONSECUTIVE_FAILURES : Nat := 5

def CMD_CLOSE_VALVE : List Nat := [0x01, 0x00, 0x00, 0x00, 0x00, 0x00, 0x00]

def CMD_OPEN_VALVE : List Nat := [0x00, 0x01, 0x00, 0x00, 0x00, 0x00, 0x00]

def STATUS_VALVE_OPEN_MASK : Nat := 0x01

def STATUS_MANUAL_OPEN_MASK : Nat := 0x01

/-! ## Status codec (`galcon_device.py`, `GalconStatus` and `_parse_status`) -/

/-- `GalconStatus` dataclass: parsed status from the Galcon device.
A byte buffer is modelled as `List Nat` (each element one byte). -/
structure GalconStatus where
  valve_open : Bool
  manual_open : Bool
  hours_remaining : Nat
  minutes_remaining : Nat
  seconds_remaining : Nat
  raw : List Nat
  battery_level : Option Nat := none
deriving DecidableEq, Repr

/-- `GalconStatus.time_remaining_seconds` property. -/
def GalconStatus.time_remaining_seconds (s : GalconStatus) : Nat :=
  s.hours_remaining * 3600 + s.minutes_remaining * 60 + s.seconds_remaining

/-- `GalconDevice._parse_status`: parse raw status bytes into a `GalconStatus`.
Mirrors the source byte-for-byte, including the defensive `len(data) > k`
guards that are redundant under the `len(data) < 5` early return. -/
def parseStatus (data : List Nat) : GalconStatus :=
  if data.length < 5 then
    { valve_open := false
      manual_open := false
      hours_remaining := 0
      minutes_remaining := 0
      seconds_remaining := 0
      raw := data }
  else
    { valve_open := decide (data.getD 0 0 &&& STATUS_VALVE_OPEN_MASK ≠ 0)
      manual_open :=
        if data.length > 1 then decide (data.getD 1 0 &&& STATUS_MANUAL_OPEN_MASK ≠ 0)
        else false
      hours_remaining := if data.length > 2 then data.getD 2 0 else 0
      minutes_remaining := if data.length > 3 then data.getD 3 0 else 0
      seconds_remaining := if data.length > 4 then data.getD 4 0 else 0
      raw := data
      battery_level := if data.length > 5 then some (data.getD 5 0) else none }

/-! ## Verified command protocol (`galcon_device.py`, `_verified_command`,
`open_valve`, `close_valve`)

Python is dynamically typed: `_verified_command` is annotated
`GalconStatus | None` but its fall-through branch executes `return False`, so
the value space of a returned result is modelled by `PyValue` with the three
constructors the code (and its annotation) can produce. -/

/-- Possible Python return values of `_verified_command` and of the command
operations wrapping it: a `GalconStatus` object, `None`, or `False`. -/
inductive PyValue where
  | someStatus (s : GalconStatus)
  | noneV
  | falseV
deriving DecidableEq, Repr

/-- Python truthiness of a `PyValue` (`if result:`): a dataclass instance is
truthy, `None` and `False` are falsy. -/
def PyValue.truthy : PyValue → Bool
  | .someStatus _ => true
  | .noneV => false
  | .falseV => false

/-- The `for attempt in range(1, COMMAND_VERIFY_ATTEMPTS + 1)` loop of
`_verified_command`.  Each iteration writes the command payload to the control
characteristic, re-wakes (a wake-characteristic write, not counted here), and
reads status back; the environment's answer to the attempt's readback is the
head of `rbs` (`none` models a read that raised a caught transient error).
Returns the Python result together with the number of control-characteristic
writes performed. -/
def verifyLoop (expectOpen : Bool) : List (Option GalconStatus) → PyValue × Nat
  | [] => (.falseV, 0)
  | rb :: rest =>
    match rb with
    | some st =>
      if st.valve_open = expectOpen then (.someStatus st, 1)
      else
        let p := verifyLoop expectOpen rest
        (p.1, p.2 + 1)
    | none =>
      let p := verifyLoop expectOpen rest
      (p.1, p.2 + 1)

/-- `GalconDevice._verified_command` on an established connection: wake,
pre-read (`pre` is the environment's answer), idempotent short-circuit when
the pre-read already shows `expectOpen`, otherwise at most
`COMMAND_VERIFY_ATTEMPTS` write+readback cycles.  Returns the Python result
and the number of control-characteristic writes. -/
def verifiedCommand (expectOpen : Bool) (pre : GalconStatus)
    (rbs : List (Option GalconStatus)) : PyValue × Nat :=
  if pre.valve_open = expectOpen then (.someStatus pre, 0)
  else verifyLoop expectOpen (rbs.take COMMAND_VERIFY_ATTEMPTS)

/-- `GalconDevice.open_valve` body on a successful connection: runs the
verified command protocol with `expect_open=True` and returns its result
(the surrounding logging does not change the value). -/
def openValve (pre : GalconStatus) (rbs : List (Option GalconStatus)) :
    PyValue × Nat :=
  verifiedCommand true pre rbs

/-- `GalconDevice.close_valve` body on a successful connection: runs the
verified command protocol with `expect_open=False` and returns its result. -/
def closeValve (pre : GalconStatus) (rbs : List (Option GalconStatus)) :
    PyValue × Nat :=
  verifiedCommand false pre rbs

/-! ## Transport executor (`galcon_device.py`, `_execute`) -/

/-- Outcome of one attempt of `_execute`: a transient fault
(`BleakError` / `asyncio.TimeoutError` / `OSError`, whether from the connect
phase or from the wrapped callback — both sit inside the same `try`), a
non-transient exception from the callback, or a successful callback value. -/
inductive AttemptOutcome (α : Type) where
  | transient (e : String)
  | fatal (e : String)
  | success (v : α)
deriving DecidableEq, Repr

/-- Result of `_execute`: the callback's value, the `ConnectionError` raised
after exhausting all retries (carrying the device address and the last
underlying cause), or a propagated non-transient exception. -/
inductive ExecResult (α : Type) where
  | ok (v : α)
  | connErr (address : String) (lastCause : Option String)
  | raised (e : String)
deriving DecidableEq, Repr

/-- Observable trace of one `_execute` call: its result, how many connect
attempts were made, and the backoff sleeps (in seconds) performed between
attempts, in order. -/
structure ExecTrace (α : Type) where
  result : ExecResult α
  connectAttempts : Nat
  backoffs : List ℚ
deriving DecidableEq, Repr

/-- The `for attempt in range(1, MAX_RETRIES + 1)` loop of `_execute`,
recursing on the remaining attempt budget; `attempt` is the 1-based attempt
number and `lastError` the accumulated `last_error`. -/
def executeAux {α : Type} (address : String)
    (outcomes : Nat → AttemptOutcome α) :
    Option String → Nat → Nat → ExecTrace α
  | lastError, _, 0 => ⟨.connErr address lastError, 0, []⟩
  | _, attempt, r + 1 =>
    match outcomes attempt with
    | .success v => ⟨.ok v, 1, []⟩
    | .fatal e => ⟨.raised e, 1, []⟩
    | .transient e =>
      let rest := executeAux address outcomes (some e) (attempt + 1) r
      if attempt < MAX_RETRIES then
        ⟨rest.result, rest.connectAttempts + 1, ((2 : ℚ) * attempt) :: rest.backoffs⟩
      else
        ⟨rest.result, rest.connectAttempts + 1, rest.backoffs⟩

/-- `GalconDevice._execute`: up to `MAX_RETRIES` attempts starting at
attempt 1 with no recorded error. -/
def execute {α : Type} (address : String)
    (outcomes : Nat → AttemptOutcome α) : ExecTrace α :=
  executeAux address outcomes none 1 MAX_RETRIES

/-! ## Poll/command coordinator (`coordinator.py`, `GalconCoordinator`) -/

/-- `OperationState` enum: visual states for the Galcon device operation. -/
inductive OperationState where
  | idle
  | connecting
  | opening
  | closing
  | verifying
  | confirmed
  | error
  | scanning
deriving DecidableEq, Repr

/-- Result of `_async_update_data`: a returned status or a raised
`UpdateFailed` (carrying the underlying cause). -/
inductive PollReturn where
  | ok (s : GalconStatus)
  | updateFailed (cause : String)
deriving DecidableEq, Repr

/-- Mutable state of a `GalconCoordinator`. `published` records the last
value passed to `async_set_updated_data`; `update_interval` is in seconds.
Timestamps are abstract `Nat` ticks. -/
structure CoordState where
  consecutive_failures : Nat
  last_successful_poll : Option Nat
  last_known_status : Option GalconStatus
  polling_enabled : Bool
  base_interval : Nat
  update_interval : Nat
  operation_state : OperationState
  last_irrigation_start : Option Nat
  last_irrigation_duration_min : Option Nat
  current_irrigation_start : Option Nat
  current_irrigation_duration : Nat
  published : Option GalconStatus
deriving DecidableEq, Repr

/-- `GalconCoordinator.__init__` state (scan interval given, no device data
yet): polling disabled, no failures, phase `Idle`, interval = base. -/
def initState (scanInterval : Nat) : CoordState :=
  { consecutive_failures := 0
    last_successful_poll := none
    last_known_status := none
    polling_enabled := false
    base_interval := scanInterval
    update_interval := scanInterval
    operation_state := .idle
    last_irrigation_start := none
    last_irrigation_duration_min := none
    current_irrigation_start := none
    current_irrigation_duration := 0
    published := none }

/-- `GalconCoordinator.reachable` property. -/
def reachable (st : CoordState) : Bool :=
  st.consecutive_failures < MAX_CONSECUTIVE_FAILURES

/-- `GalconCoordinator.set_polling`. -/
def setPolling (enabled : Bool) (st : CoordState) : CoordState :=
  if enabled then
    { st with polling_enabled := true
              consecutive_failures := 0
              update_interval := st.base_interval }
  else
    { st with polling_enabled := false
              update_interval := 24 * 3600
              operation_state := .idle }

/-- The synthetic all-closed status `_async_update_data` caches when polling
is disabled and no status was ever read. -/
def emptySynthetic : GalconStatus :=
  { valve_open := false, manual_open := false, hours_remaining := 0,
    minutes_remaining := 0, seconds_remaining := 0, raw := [] }

/-- `GalconCoordinator._async_update_data`.  `deviceResult` is the outcome of
`self.device.get_status()` (`.error` = any exception, all are caught); `now`
is the current time.  Returns the new state, the operation phases set during
the call in order, and the Python result (return value or raised
`UpdateFailed`). -/
def updateData (deviceResult : Except String GalconStatus) (now : Nat)
    (st : CoordState) : CoordState × List OperationState × PollReturn :=
  if st.polling_enabled = false then
    match st.last_known_status with
    | some s => (st, [], .ok s)
    | none =>
      ({ st with last_known_status := some emptySynthetic }, [], .ok emptySynthetic)
  else
    match deviceResult with
    | .ok status =>
      ({ st with consecutive_failures := 0
                 last_successful_poll := some now
                 last_known_status := some status
                 operation_state := .idle },
       [.scanning, .idle], .ok status)
    | .error err =>
      let st' := { st with consecutive_failures := st.consecutive_failures + 1
                           operation_state := .idle }
      match st.last_known_status with
      | some s => (st', [.scanning, .idle], .ok s)
      | none => (st', [.scanning, .idle], .updateFailed err)

/-- `GalconCoordinator._record_irrigation_start`. -/
def recordIrrigationStart (durationMinutes : Nat) (now : Nat)
    (st : CoordState) : CoordState :=
  { st with current_irrigation_start := some now
            current_irrigation_duration := durationMinutes }

/-- `GalconCoordinator._record_irrigation_end`: finalize the last irrigation
record when an in-flight record exists. -/
def recordIrrigationEnd (st : CoordState) : CoordState :=
  match st.current_irrigation_start with
  | some t =>
    { st with last_irrigation_start := some t
              last_irrigation_duration_min := some st.current_irrigation_duration
              current_irrigation_start := none }
  | none => st

/-- The synthetic status `async_open_valve` caches when the command was sent
but not confirmed: asserts the requested open state and duration, carrying
over raw bytes and battery from the last known status. -/
def openSynthetic (h m s : Nat) (prev : Option GalconStatus) : GalconStatus :=
  { valve_open := true, manual_open := true, hours_remaining := h,
    minutes_remaining := m, seconds_remaining := s,
    raw := match prev with | some ls => ls.raw | none => []
    battery_level := match prev with | some ls => ls.battery_level | none => none }

/-- The synthetic fully-closed status cached by `async_close_valve` and
`async_irrigation_ended` on non-confirmation / countdown expiry, carrying
over raw bytes and battery from the last known status. -/
def closedSynthetic (prev : Option GalconStatus) : GalconStatus :=
  { valve_open := false, manual_open := false, hours_remaining := 0,
    minutes_remaining := 0, seconds_remaining := 0,
    raw := match prev with | some ls => ls.raw | none => []
    battery_level := match prev with | some ls => ls.battery_level | none => none }

/-- `GalconCoordinator.async_open_valve`.  `driverResult` is the outcome of
`self.device.open_valve(...)` (`.error` = any exception).  Returns the new
state, the phases set in order, and the Python outcome (`.ok ()` or the
re-raised exception). -/
def asyncOpenValve (driverResult : Except String PyValue) (h m s : Nat)
    (now : Nat) (st : CoordState) :
    CoordState × List OperationState × Except String Unit :=
  match driverResult with
  | .error e =>
    ({ st with operation_state := .error },
     [.connecting, .opening, .error], .error e)
  | .ok v =>
    let newStatus :=
      match v with
      | .someStatus real => real
      | _ => openSynthetic h m s st.last_known_status
    let st' := { st with operation_state := .confirmed
                         last_known_status := some newStatus }
    let st'' := recordIrrigationStart (h * 60 + m + (if s ≠ 0 then 1 else 0)) now st'
    ({ st'' with published := some newStatus },
     [.connecting, .opening, .confirmed], .ok ())

/-- `GalconCoordinator.async_close_valve`. -/
def asyncCloseValve (driverResult : Except String PyValue)
    (st : CoordState) : CoordState × List OperationState × Except String Unit :=
  match driverResult with
  | .error e =>
    ({ st with operation_state := .error },
     [.connecting, .closing, .error], .error e)
  | .ok v =>
    let st' := recordIrrigationEnd { st with operation_state := .confirmed }
    let newStatus :=
      match v with
      | .someStatus real => real
      | _ => closedSynthetic st'.last_known_status
    ({ st' with last_known_status := some newStatus, published := some newStatus },
     [.connecting, .closing, .confirmed], .ok ())

/-- `GalconCoordinator.async_irrigation_ended`: finalize the irrigation
record, cache and publish a synthetic closed status, and disable polling. -/
def asyncIrrigationEnded (st : CoordState) : CoordState :=
  let st' := recordIrrigationEnd st
  let newStatus := closedSynthetic st'.last_known_status
  setPolling false
    { st' with last_known_status := some newStatus, published := some newStatus }

/-- A sequence of poll cycles: fold `updateData` over a list of device
outcomes (all at abstract time 0). -/
def pollSteps (results : List (Except String GalconStatus))
    (st : CoordState) : CoordState :=
  results.foldl (fun s r => (updateData r 0 s).1) st

/-! ## Theorems -/

lemma and_one_testBit (n : Nat) : decide (n &&& 1 ≠ 0) = n.testBit 0 := by
  rcases Nat.even_or_odd n with h | h
  · obtain ⟨k, rfl⟩ := h
    simp [Nat.and_one_is_mod, Nat.testBit_zero, Nat.mul_mod_right, ← two_mul]
  · obtain ⟨k, rfl⟩ := h
    simp [Nat.and_one_is_mod, Nat.testBit_zero, Nat.add_mul_mod_self_left]

/-- C6: `parseStatus` is a total function on byte buffers.  Buffers shorter
than 5 bytes give the all-false/zero status with `raw` equal to the input and
no battery level; buffers of length ≥ 5 give `valve_open` = bit 0 of byte 0,
`manual_open` = bit 0 of byte 1, hours/minutes/seconds = bytes 2/3/4
unvalidated, `battery_level` = byte 5 when present else `none`; and
`parseStatus [0x01,0x00,0x01,0x05,0x00]` is open, not manual, 1h 5m 0s,
no battery. -/
theorem parseStatus_spec (data : List Nat) :
    (data.length < 5 →
      parseStatus data =
        { valve_open := false, manual_open := false, hours_remaining := 0,
          minutes_remaining := 0, seconds_remaining := 0, raw := data,
          battery_level := none }) ∧
    (5 ≤ data.length →
      parseStatus data =
        { valve_open := (data.getD 0 0).testBit 0
          manual_open := (data.getD 1 0).testBit 0
          hours_remaining := data.getD 2 0
          minutes_remaining := data.getD 3 0
          seconds_remaining := data.getD 4 0
          raw := data
          battery_level := if 5 < data.length then some (data.getD 5 0) else none }) ∧
    parseStatus [0x01, 0x00, 0x01, 0x05, 0x00] =
      { valve_open := true, manual_open := false, hours_remaining := 1,
        minutes_remaining := 5, seconds_remaining := 0,
        raw := [0x01, 0x00, 0x01, 0x05, 0x00], battery_level := none } := by
  refine ⟨fun h => by simp [parseStatus, h], fun h => ?_, by decide⟩
  have h5 : ¬ data.length < 5 := by omega
  have h1 : data.length > 1 := by omega
  have h2 : data.length > 2 := by omega
  have h3 : data.length > 3 := by omega
  have h4 : data.length > 4 := by omega
  simp only [parseStatus, h5, if_false, h1, h2, h3, h4, if_true,
    STATUS_VALVE_OPEN_MASK, STATUS_MANUAL_OPEN_MASK, and_one_testBit]

/-- Witness for C6: evaluates `parseStatus_spec` on the concrete 5-byte
scenario buffer, discharging the length hypothesis there. -/
theorem parseStatus_spec_witness :
    parseStatus [0x01, 0x00, 0x01, 0x05, 0x00] =
      { valve_open := (([0x01, 0x00, 0x01, 0x05, 0x00] : List Nat).getD 0 0).testBit 0
        manual_open := (([0x01, 0x00, 0x01, 0x05, 0x00] : List Nat).getD 1 0).testBit 0
        hours_remaining := ([0x01, 0x00, 0x01, 0x05, 0x00] : List Nat).getD 2 0
        minutes_remaining := ([0x01, 0x00, 0x01, 0x05, 0x00] : List Nat).getD 3 0
        seconds_remaining := ([0x01, 0x00, 0x01, 0x05, 0x00] : List Nat).getD 4 0
        raw := [0x01, 0x00, 0x01, 0x05, 0x00]
        battery_level :=
          if 5 < ([0x01, 0x00, 0x01, 0x05, 0x00] : List Nat).length then
            some (([0x01, 0x00, 0x01, 0x05, 0x00] : List Nat).getD 5 0)
          else none } :=
  (parseStatus_spec [0x01, 0x00, 0x01, 0x05, 0x00]).2.1 (by decide)

lemma verifyLoop_all_mismatch (expectOpen : Bool)
    (rbs : List (Option GalconStatus))
    (h : ∀ rb ∈ rbs, ∀ s, rb = some s → s.valve_open ≠ expectOpen) :
    verifyLoop expectOpen rbs = (.falseV, rbs.length) := by
  induction rbs with
  | nil => rfl
  | cons rb rest ih =>
    have hrest : ∀ rb ∈ rest, ∀ s, rb = some s → s.valve_open ≠ expectOpen :=
      fun rb hm s hs => h rb (List.mem_cons_of_mem _ hm) s hs
    cases rb with
    | none => simp [verifyLoop, ih hrest]
    | some st =>
      have : st.valve_open ≠ expectOpen := h (some st) (List.mem_cons_self _ _) st rfl
      simp [verifyLoop, this, ih hrest]

/-- C3: when the mandatory pre-command status read already reports the
desired `valve_open` state, `open_valve` / `close_valve` perform zero
control-characteristic writes and return the pre-existing status from that
read unchanged. -/
theorem command_idempotent_short_circuit (pre : GalconStatus)
    (rbs : List (Option GalconStatus)) :
    (pre.valve_open = true → openValve pre rbs = (.someStatus pre, 0)) ∧
    (pre.valve_open = false → closeValve pre rbs = (.someStatus pre, 0)) :=
  ⟨fun h => by simp [openValve, verifiedCommand, h],
   fun h => by simp [closeValve, verifiedCommand, h]⟩

/-- Witness for C3: an already-open status short-circuits `open_valve` with
zero control writes. -/
theorem command_idempotent_short_circuit_witness :
    openValve ⟨true, false, 0, 20, 0, [0x01, 0x00, 0x00, 0x14, 0x00], none⟩ [] =
      (.someStatus ⟨true, false, 0, 20, 0, [0x01, 0x00, 0x00, 0x14, 0x00], none⟩, 0) :=
  (command_idempotent_short_circuit
    ⟨true, false, 0, 20, 0, [0x01, 0x00, 0x00, 0x14, 0x00], none⟩ []).1 rfl

lemma verifyLoop_match_after_mismatch (expectOpen : Bool)
    (pfx : List (Option GalconStatus))
    (hpfx : ∀ rb ∈ pfx, ∀ s, rb = some s → s.valve_open ≠ expectOpen)
    (st : GalconStatus) (hst : st.valve_open = expectOpen)
    (rest : List (Option GalconStatus)) :
    verifyLoop expectOpen (pfx ++ some st :: rest) =
      (.someStatus st, pfx.length + 1) := by
  induction pfx with
  | nil => simp [verifyLoop, hst]
  | cons rb tail ih =>
    have htail : ∀ rb ∈ tail, ∀ s, rb = some s → s.valve_open ≠ expectOpen :=
      fun rb hm s hs => hpfx rb (List.mem_cons_of_mem _ hm) s hs
    cases rb with
    | none => simp [verifyLoop, ih htail]
    | some s₀ =>
      have : s₀.valve_open ≠ expectOpen :=
        hpfx (some s₀) (List.mem_cons_self _ _) s₀ rfl
      simp [verifyLoop, this, ih htail]

/-- C4: if the pre-read does not short-circuit and no readback ever matches
`expect_open`, exactly `COMMAND_VERIFY_ATTEMPTS` (3) control-write-plus-
readback cycles are performed and the unconfirmed signal is returned without
raising; a readback matching `expect_open` on any attempt — i.e. after any
prefix of mismatching or failed readbacks short of the attempt budget — ends
the loop immediately with that status as the confirmed result, after exactly
one write+readback cycle per attempt so far. -/
theorem verify_bound (expectOpen : Bool) (pre : GalconStatus)
    (rbs : List (Option GalconStatus)) (pfx : List (Option GalconStatus))
    (st : GalconStatus) (rest : List (Option GalconStatus)) :
    (pre.valve_open ≠ expectOpen →
      (∀ rb ∈ rbs, ∀ s, rb = some s → s.valve_open ≠ expectOpen) →
      COMMAND_VERIFY_ATTEMPTS ≤ rbs.length →
      verifiedCommand expectOpen pre rbs = (.falseV, COMMAND_VERIFY_ATTEMPTS)) ∧
    (pre.valve_open ≠ expectOpen →
      (∀ rb ∈ pfx, ∀ s, rb = some s → s.valve_open ≠ expectOpen) →
      pfx.length < COMMAND_VERIFY_ATTEMPTS → st.valve_open = expectOpen →
      verifiedCommand expectOpen pre (pfx ++ some st :: rest) =
        (.someStatus st, pfx.length + 1)) := by
  constructor
  · intro hpre hmis hlen
    have htake : ∀ rb ∈ rbs.take COMMAND_VERIFY_ATTEMPTS, ∀ s, rb = some s →
        s.valve_open ≠ expectOpen :=
      fun rb hm s hs => hmis rb (List.mem_of_mem_take hm) s hs
    have hlen' : (rbs.take COMMAND_VERIFY_ATTEMPTS).length = COMMAND_VERIFY_ATTEMPTS := by
      simp [List.length_take]; omega
    simp [verifiedCommand, hpre, verifyLoop_all_mismatch _ _ htake, hlen']
  · intro hpre hmis hlen hst
    obtain ⟨k, hk⟩ : ∃ k, COMMAND_VERIFY_ATTEMPTS - pfx.length = k + 1 :=
      ⟨COMMAND_VERIFY_ATTEMPTS - pfx.length - 1, by omega⟩
    simp only [verifiedCommand, hpre, if_false]
    rw [List.take_append_eq_append_take,
      List.take_of_length_le (Nat.le_of_lt hlen), hk, List.take_succ_cons,
      verifyLoop_match_after_mismatch expectOpen pfx hmis st hst]

/-- Witness for C4: a closed pre-read with three closed readbacks under
`expect_open = true` gives exactly 3 cycles and the unconfirmed signal; a
failed readback, then a closed readback, then an open readback confirms on
the third attempt after exactly 3 cycles. -/
theorem verify_bound_witness :
    verifiedCommand true ⟨false, false, 0, 0, 0, [0, 0, 0, 0, 0], none⟩
        (List.replicate 3 (some ⟨false, false, 0, 0, 0, [0, 0, 0, 0, 0], none⟩)) =
      (.falseV, COMMAND_VERIFY_ATTEMPTS) ∧
    verifiedCommand true ⟨false, false, 0, 0, 0, [0, 0, 0, 0, 0], none⟩
        ([none, some ⟨false, false, 0, 0, 0, [0, 0, 0, 0, 0], none⟩] ++
          some ⟨true, false, 0, 20, 0, [1, 0, 0, 20, 0], none⟩ :: []) =
      (.someStatus ⟨true, false, 0, 20, 0, [1, 0, 0, 20, 0], none⟩, 3) :=
  ⟨(verify_bound true ⟨false, false, 0, 0, 0, [0, 0, 0, 0, 0], none⟩
      (List.replicate 3 (some ⟨false, false, 0, 0, 0, [0, 0, 0, 0, 0], none⟩))
      [none, some ⟨false, false, 0, 0, 0, [0, 0, 0, 0, 0], none⟩]
      ⟨true, false, 0, 20, 0, [1, 0, 0, 20, 0], none⟩ []).1
      (by decide) (by decide) (by decide),
   (verify_bound true ⟨false, false, 0, 0, 0, [0, 0, 0, 0, 0], none⟩
      (List.replicate 3 (some ⟨false, false, 0, 0, 0, [0, 0, 0, 0, 0], none⟩))
      [none, some ⟨false, false, 0, 0, 0, [0, 0, 0, 0, 0], none⟩]
      ⟨true, false, 0, 20, 0, [1, 0, 0, 20, 0], none⟩ []).2
      (by decide) (by decide) (by decide) (by decide)⟩

/-- C5: when every attempt fails with a transient fault, `_execute` makes
exactly `MAX_RETRIES` (3) connect attempts, sleeps `2.0 * attempt_number`
seconds after each failed attempt except the last, and raises a
connection-level error carrying the device address and the last underlying
cause; a non-transient error from the wrapped operation propagates
immediately without further retries (shown both on attempt 1 and after a
transient first attempt). -/
theorem execute_retry_bound {α : Type} (address : String)
    (outcomes : Nat → AttemptOutcome α) (e₁ e₂ e₃ f : String) :
    (outcomes 1 = .transient e₁ → outcomes 2 = .transient e₂ →
      outcomes 3 = .transient e₃ →
      execute address outcomes =
        ⟨.connErr address (some e₃), MAX_RETRIES, [(2 : ℚ) * 1, (2 : ℚ) * 2]⟩) ∧
    (outcomes 1 = .fatal f →
      execute address outcomes = ⟨.raised f, 1, []⟩) ∧
    (outcomes 1 = .transient e₁ → outcomes 2 = .fatal f →
      execute address outcomes = ⟨.raised f, 2, [(2 : ℚ) * 1]⟩) := by
  refine ⟨fun h1 h2 h3 => ?_, fun h1 => ?_, fun h1 h2 => ?_⟩
  · simp [execute, executeAux, h1, h2, h3, MAX_RETRIES]
  · simp [execute, executeAux, h1, MAX_RETRIES]
  · simp [execute, executeAux, h1, h2, MAX_RETRIES]

/-- Witness for C5: evaluates `execute_retry_bound` on a concrete outcome
function that is transient on every attempt, and on one that is fatal on
attempt 1. -/
theorem execute_retry_bound_witness :
    execute "AA:BB" (fun _ => (AttemptOutcome.transient "t" : AttemptOutcome Nat)) =
      ⟨.connErr "AA:BB" (some "t"), MAX_RETRIES, [(2 : ℚ) * 1, (2 : ℚ) * 2]⟩ ∧
    execute "AA:BB" (fun _ => (AttemptOutcome.fatal "boom" : AttemptOutcome Nat)) =
      ⟨.raised "boom", 1, []⟩ :=
  ⟨(execute_retry_bound "AA:BB" (fun _ => AttemptOutcome.transient "t")
      "t" "t" "t" "f").1 rfl rfl rfl,
   (execute_retry_bound "AA:BB" (fun _ => AttemptOutcome.fatal "boom")
      "t" "t" "t" "boom").2.1 rfl⟩

/-- C1 (code behavior at the failing input): when the verified command
protocol exhausts all verify attempts without a matching readback, both
`open_valve` and `close_valve` return Python `False` — not the `None` value
their own type annotations and docstrings promise (`GalconStatus | None`,
"Returns the post-command GalconStatus if successful, None otherwise"). -/
theorem unconfirmed_returns_false_not_none :
    (openValve ⟨false, false, 0, 0, 0, [0, 0, 0, 0, 0], none⟩
        (List.replicate 3 (some ⟨false, false, 0, 0, 0, [0, 0, 0, 0, 0], none⟩))).1 =
      PyValue.falseV ∧
    (closeValve ⟨true, false, 0, 20, 0, [1, 0, 0, 20, 0], none⟩
        (List.replicate 3 (some ⟨true, false, 0, 20, 0, [1, 0, 0, 20, 0], none⟩))).1 =
      PyValue.falseV ∧
    PyValue.falseV ≠ PyValue.noneV := by
  decide

/-- C2 (counterexample): a successful `async_open_valve` call leaves the
operation phase at `Confirmed`, which is neither `Idle` nor `Error` — the
phase sequence is Connecting → Opening → Confirmed with no return to Idle. -/
theorem open_valve_ends_confirmed :
    (asyncOpenValve (.ok (.someStatus ⟨true, false, 0, 20, 0, [1, 0, 0, 20, 0], none⟩))
        0 20 0 0 (initState 300)).1.operation_state = OperationState.confirmed ∧
    OperationState.confirmed ≠ OperationState.idle ∧
    OperationState.confirmed ≠ OperationState.error := by
  decide

/-- C2 (amended): a poll cycle with polling enabled always ends with phase
`Idle` (Scanning → Idle, also on failure); a command operation ends with
phase `Confirmed` on success — following Connecting → Opening/Closing →
Confirmed, without returning to Idle — and with phase `Error` on
exception. -/
theorem operation_phase_endpoints (st : CoordState)
    (deviceResult : Except String GalconStatus) (v : PyValue) (e : String)
    (h m s now : Nat) :
    (st.polling_enabled = true →
      (updateData deviceResult now st).1.operation_state = .idle ∧
      (updateData deviceResult now st).2.1 = [.scanning, .idle]) ∧
    ((asyncOpenValve (.ok v) h m s now st).1.operation_state = .confirmed ∧
     (asyncOpenValve (.ok v) h m s now st).2.1 = [.connecting, .opening, .confirmed]) ∧
    ((asyncOpenValve (.error e) h m s now st).1.operation_state = .error ∧
     (asyncOpenValve (.error e) h m s now st).2.1 = [.connecting, .opening, .error]) ∧
    ((asyncCloseValve (.ok v) st).1.operation_state = .confirmed ∧
     (asyncCloseValve (.ok v) st).2.1 = [.connecting, .closing, .confirmed]) ∧
    ((asyncCloseValve (.error e) st).1.operation_state = .error ∧
     (asyncCloseValve (.error e) st).2.1 = [.connecting, .closing, .error]) := by
  refine ⟨fun hp => ?_, ?_, by simp [asyncOpenValve], ?_, by simp [asyncCloseValve]⟩
  · rcases deviceResult with e' | s'
    · rcases hls : st.last_known_status with _ | s₀ <;> simp [updateData, hp, hls]
    · simp [updateData, hp]
  · simp [asyncOpenValve, recordIrrigationStart]
  · simp [asyncCloseValve, recordIrrigationEnd]
    rcases st.current_irrigation_start with _ | t <;> simp

/-- Witness for C2's amended theorem: a successful poll on a freshly enabled
coordinator ends at `Idle` with phases Scanning → Idle. -/
theorem operation_phase_endpoints_witness :
    (updateData (.ok ⟨true, false, 0, 20, 0, [1, 0, 0, 20, 0], none⟩) 0
        (setPolling true (initState 300))).1.operation_state = .idle ∧
    (updateData (.ok ⟨true, false, 0, 20, 0, [1, 0, 0, 20, 0], none⟩) 0
        (setPolling true (initState 300))).2.1 = [.scanning, .idle] :=
  (operation_phase_endpoints (setPolling true (initState 300))
    (.ok ⟨true, false, 0, 20, 0, [1, 0, 0, 20, 0], none⟩)
    PyValue.noneV "e" 0 0 0 0).1 rfl

/-- C7: with polling enabled, `consecutive_failures` increments by exactly 1
on each failed poll and resets to 0 on any successful poll; `reachable` holds
iff `consecutive_failures < MAX_CONSECUTIVE_FAILURES` (5); 4 consecutive
failures from a fresh enabled coordinator leave the device reachable and the
5th flips it to unreachable. -/
theorem failure_count_semantics (st : CoordState) (e : String)
    (s : GalconStatus) (now : Nat) :
    (st.polling_enabled = true →
      (updateData (.error e) now st).1.consecutive_failures =
        st.consecutive_failures + 1) ∧
    (st.polling_enabled = true →
      (updateData (.ok s) now st).1.consecutive_failures = 0) ∧
    (reachable st = true ↔ st.consecutive_failures < MAX_CONSECUTIVE_FAILURES) ∧
    reachable (pollSteps
      (List.replicate (MAX_CONSECUTIVE_FAILURES - 1) (.error "x"))
      (setPolling true (initState 300))) = true ∧
    reachable (pollSteps
      (List.replicate MAX_CONSECUTIVE_FAILURES (.error "x"))
      (setPolling true (initState 300))) = false := by
  refine ⟨fun hp => ?_, fun hp => by simp [updateData, hp], ?_, by decide, by decide⟩
  · rcases hls : st.last_known_status with _ | s₀ <;> simp [updateData, hp, hls]
  · simp [reachable]

/-- Witness for C7: a failed poll on a fresh enabled coordinator takes the
failure count from 0 to 1. -/
theorem failure_count_semantics_witness :
    (updateData (.error "x") 0 (setPolling true (initState 300))).1.consecutive_failures =
      (setPolling true (initState 300)).consecutive_failures + 1 :=
  (failure_count_semantics (setPolling true (initState 300)) "x" emptySynthetic 0).1 rfl

/-- C8: a failed poll with polling enabled increments the failure counter,
sets the phase to `Idle`, leaves the cached status unchanged, and returns the
previously cached status when one exists; it raises `UpdateFailed` only when
no cached status exists yet. -/
theorem poll_failure_cached_fallback (st : CoordState) (e : String)
    (now : Nat) (s : GalconStatus) :
    st.polling_enabled = true →
      (updateData (.error e) now st).1.consecutive_failures =
          st.consecutive_failures + 1 ∧
      (updateData (.error e) now st).1.operation_state = .idle ∧
      (updateData (.error e) now st).1.last_known_status = st.last_known_status ∧
      (st.last_known_status = some s →
        (updateData (.error e) now st).2.2 = .ok s) ∧
      (st.last_known_status = none →
        (updateData (.error e) now st).2.2 = .updateFailed e) := by
  intro hp
  rcases hls : st.last_known_status with _ | s₀
  · simp [updateData, hp, hls]
  · simp [updateData, hp, hls]

/-- Witness for C8: a failed first-ever poll (no cache) on a fresh enabled
coordinator raises `UpdateFailed`. -/
theorem poll_failure_cached_fallback_witness :
    (updateData (.error "x") 0 (setPolling true (initState 300))).2.2 =
      .updateFailed "x" :=
  (((poll_failure_cached_fallback (setPolling true (initState 300)) "x" 0
    emptySynthetic) rfl).2.2.2.2) rfl

/-- The coordinator state used to witness C9: an in-flight irrigation record
and a cached open status with raw bytes and a battery level. -/
def sampleC9State : CoordState :=
  { consecutive_failures := 0
    last_successful_poll := some 3
    last_known_status := some ⟨true, true, 0, 20, 0, [1, 0, 0, 20, 0], some 80⟩
    polling_enabled := true
    base_interval := 300
    update_interval := 300
    operation_state := .idle
    last_irrigation_start := none
    last_irrigation_duration_min := none
    current_irrigation_start := some 7
    current_irrigation_duration := 20
    published := none }

/-- C9: a countdown-expiry notification while an in-flight irrigation record
exists finalizes the record (`last_duration_minutes` becomes the in-flight
duration, `last_start` the in-flight start), caches and publishes a fully
closed/zeroed status carrying over the previous cached status's raw bytes
and battery level, and disables polling. -/
theorem irrigation_ended_finalizes (st : CoordState) (t : Nat)
    (s : GalconStatus) :
    st.current_irrigation_start = some t → st.last_known_status = some s →
      (asyncIrrigationEnded st).last_irrigation_duration_min =
          some st.current_irrigation_duration ∧
      (asyncIrrigationEnded st).last_irrigation_start = some t ∧
      (asyncIrrigationEnded st).current_irrigation_start = none ∧
      (asyncIrrigationEnded st).last_known_status =
        some ⟨false, false, 0, 0, 0, s.raw, s.battery_level⟩ ∧
      (asyncIrrigationEnded st).published =
        some ⟨false, false, 0, 0, 0, s.raw, s.battery_level⟩ ∧
      (asyncIrrigationEnded st).polling_enabled = false := by
  intro h1 h2
  simp [asyncIrrigationEnded, recordIrrigationEnd, h1, h2, closedSynthetic,
    setPolling]

/-- Witness for C9: evaluates `irrigation_ended_finalizes` on
`sampleC9State`. -/
theorem irrigation_ended_finalizes_witness :
    (asyncIrrigationEnded sampleC9State).last_irrigation_duration_min =
        some sampleC9State.current_irrigation_duration ∧
    (asyncIrrigationEnded sampleC9State).last_irrigation_start = some 7 ∧
    (asyncIrrigationEnded sampleC9State).current_irrigation_start = none ∧
    (asyncIrrigationEnded sampleC9State).last_known_status =
      some ⟨false, false, 0, 0, 0,
        (⟨true, true, 0, 20, 0, [1, 0, 0, 20, 0], some 80⟩ : GalconStatus).raw,
        (⟨true, true, 0, 20, 0, [1, 0, 0, 20, 0], some 80⟩ : GalconStatus).battery_level⟩ ∧
    (asyncIrrigationEnded sampleC9State).published =
      some ⟨false, false, 0, 0, 0,
        (⟨true, true, 0, 20, 0, [1, 0, 0, 20, 0], some 80⟩ : GalconStatus).raw,
        (⟨true, true, 0, 20, 0, [1, 0, 0, 20, 0], some 80⟩ : GalconStatus).battery_level⟩ ∧
    (asyncIrrigationEnded sampleC9State).polling_enabled = false :=
  irrigation_ended_finalizes sampleC9State 7
    ⟨true, true, 0, 20, 0, [1, 0, 0, 20, 0], some 80⟩ rfl rfl

/-- C10: `set_polling(true)` resets the failure counter to 0 (making the
device immediately reachable again) and restores the base poll interval;
`set_polling(false)` leaves the failure counter untouched, sets the interval
to 24 hours, and forces the operation phase to `Idle`. -/
theorem set_polling_spec (st : CoordState) :
    (setPolling true st).consecutive_failures = 0 ∧
    reachable (setPolling true st) = true ∧
    (setPolling true st).update_interval = st.base_interval ∧
    (setPolling true st).polling_enabled = true ∧
    (setPolling false st).consecutive_failures = st.consecutive_failures ∧
    (setPolling false st).update_interval = 24 * 3600 ∧
    (setPolling false st).operation_state = .idle ∧
    (setPolling false st).polling_enabled = false := by
  simp [setPolling, reachable, MAX_CONSECUTIVE_FAILURES]

end GalconBT
